import Mathlib

/-!
Verification development for the hdhr-dvr repository (app.go).

The Go program is shallowly embedded: the SQLite tables `channels` and
`recordings` become lists inside a `Store` structure, HTTP handlers and the
scheduler become pure functions over the store (the source handlers perform
their writes through `db.Exec`, which is modelled by returning the updated
store), and wall-clock instants are integers counting seconds of local time.
Fallible external effects (mkdir, log-file creation, the ffmpeg run) are
passed in as explicit booleans selecting the corresponding error branch of
the source.
-/

set_option autoImplicit false

namespace HdhrDvr

/-- Channel row (table `channels` in app.go: guide_number, guide_name, url). -/
structure Channel where
  guideNumber : String
  guideName : String
  url : String
deriving Repr, DecidableEq

/-- Recording row (table `recordings` in app.go; `created_at` is not read by
any code path the claims concern and is omitted). `duration` is in minutes,
and is an `Int` since the Go field is a signed `int`. -/
structure Recording where
  id : Nat
  channelId : String
  date : String
  startTime : String
  duration : Int
  status : String
deriving Repr, DecidableEq

/-- The SQLite database: both tables plus the AUTOINCREMENT counter for
`recordings.id`. -/
structure Store where
  channels : List Channel
  recordings : List Recording
  nextId : Nat
deriving Repr, DecidableEq

/-- Body of `POST /api/recordings` (struct `RecordingRequest` in app.go). -/
structure RecordingRequest where
  channelId : String
  date : String
  startTime : String
  duration : Int
deriving Repr, DecidableEq

/-- Row lookup `SELECT ... FROM channels WHERE guide_number = ?`. -/
def findChannel (chs : List Channel) (gid : String) : Option Channel :=
  chs.find? (fun c => c.guideNumber == gid)

/-- Row lookup `SELECT ... FROM recordings WHERE id = ?`. -/
def findRecording (rs : List Recording) (id : Nat) : Option Recording :=
  rs.find? (fun r => r.id == id)

/-- Status of the recording with the given id, if present. -/
def statusOf (s : Store) (id : Nat) : Option String :=
  (findRecording s.recordings id).map (fun r => r.status)

/-- The `SELECT EXISTS(SELECT 1 FROM channels WHERE guide_number = ?)` check
of createRecording. -/
def channelExists (s : Store) (gid : String) : Bool :=
  (findChannel s.channels gid).isSome

/-- The unconditional `UPDATE recordings SET status = ? WHERE id = ?` used
at the end of startRecording (app.go line 305). -/
def setStatusUnconditional (s : Store) (id : Nat) (st : String) : Store :=
  { s with recordings :=
      s.recordings.map (fun r => if r.id == id then { r with status := st } else r) }

/-! ### Wall-clock time

app.go combines `date` and `start_time` into the string `date ++ " " ++
start_time` and parses it with Go layout `"2006-01-02 15:04"` in the
configured location (`time.ParseInLocation`, app.go lines 174 and 232).  The
embedding parses the same string shape — four-digit year, literal dashes,
two-digit zero-padded month/day/hour/minute with the same range validation Go
performs — and returns the local wall-clock instant as seconds since the
local epoch.  Both `now` and the parsed start are taken in the same location,
so comparisons between them are faithfully modelled at wall-clock
granularity (a fixed UTC offset; DST transitions are not modelled, and no
claim depends on them). -/

/-- Gregorian leap-year test. -/
def isLeap (y : Nat) : Bool :=
  (y % 4 == 0 && y % 100 != 0) || y % 400 == 0

/-- Number of days in a month, as Go's date validation uses it. -/
def daysInMonth (y m : Nat) : Nat :=
  if m == 2 then (if isLeap y then 29 else 28)
  else if m == 4 || m == 6 || m == 9 || m == 11 then 30
  else 31

/-- Days since 1970-01-01 of a civil date (standard era-based algorithm;
every division here is applied to nonnegative operands). -/
def daysFromCivil (y m d : Nat) : Int :=
  let yAdj : Int := (y : Int) - (if m ≤ 2 then 1 else 0)
  let era : Int := (if 0 ≤ yAdj then yAdj else yAdj - 399) / 400
  let yoe : Int := yAdj - era * 400
  let mp : Int := ((m : Int) + 9) % 12
  let doy : Int := (153 * mp + 2) / 5 + (d : Int) - 1
  let doe : Int := yoe * 365 + yoe / 4 - yoe / 100 + doy
  era * 146097 + doe - 719468

/-- Numeric value of a decimal digit character. -/
def digitVal (c : Char) : Nat := c.toNat - 48

/-- Consume exactly two decimal digits (Go's zero-padded numeric layout
elements `01`, `02`, `15`, `04`). -/
def twoDigits : List Char → Option (Nat × List Char)
  | c1 :: c2 :: rest =>
    if c1.isDigit && c2.isDigit then some (digitVal c1 * 10 + digitVal c2, rest) else none
  | _ => none

/-- Consume exactly four decimal digits (Go's year layout element `2006`). -/
def fourDigits : List Char → Option (Nat × List Char)
  | c1 :: c2 :: c3 :: c4 :: rest =>
    if c1.isDigit && c2.isDigit && c3.isDigit && c4.isDigit then
      some (((digitVal c1 * 10 + digitVal c2) * 10 + digitVal c3) * 10 + digitVal c4, rest)
    else none
  | _ => none

/-- Consume one expected literal character of the layout. -/
def expectChar (c : Char) : List Char → Option (List Char)
  | c1 :: rest => if c1 == c then some rest else none
  | [] => none

/-- Model of Go `time.ParseInLocation("2006-01-02 15:04", s, loc)` followed
by conversion to an instant: local-epoch seconds of the parsed wall-clock
time.  Mirrors Go's validation: month 1..12, day 1..daysInMonth, hour 0..23,
minute 0..59, and the whole string must be consumed. -/
def parseDateTime (s : String) : Option Int := do
  let cs := s.data
  let (y, cs) ← fourDigits cs
  let cs ← expectChar '-' cs
  let (mo, cs) ← twoDigits cs
  let cs ← expectChar '-' cs
  let (d, cs) ← twoDigits cs
  let cs ← expectChar ' ' cs
  let (h, cs) ← twoDigits cs
  let cs ← expectChar ':' cs
  let (mi, cs) ← twoDigits cs
  if cs ≠ [] then none
  else if mo < 1 || 12 < mo then none
  else if d < 1 || daysInMonth y mo < d then none
  else if 23 < h then none
  else if 59 < mi then none
  else some (daysFromCivil y mo d * 86400 + (h : Int) * 3600 + (mi : Int) * 60)

/-- Start instant of a recording: app.go builds
`fmt.Sprintf("%s %s", r.Date, r.StartTime)` and parses it (lines 173 and
232). -/
def parseStart (date startTime : String) : Option Int :=
  parseDateTime (date ++ " " ++ startTime)

/-! ### Store operations -/

/-- Response of createRecording, reduced to what the handler writes: the
HTTP status code and, on 201, the encoded recording carrying the assigned
id. -/
structure CreateResponse where
  status : Nat
  body : Option Recording
deriving Repr, DecidableEq

/-- Handler `POST /api/recordings` (createRecording, app.go lines 565-647),
at the level of an already-decoded request body: reject 400 when
`req.Duration <= 0`; reject 404 when the channel id is not in `channels`;
otherwise insert a new row with status "pending" and answer 201 with the
recording carrying the id assigned by the store.  (The push onto the
in-process `recordingCh` buffer does not touch the store and is dropped;
`database/sql` errors are not modelled.) -/
def createRecording (s : Store) (req : RecordingRequest) : Store × CreateResponse :=
  if req.duration ≤ 0 then (s, ⟨400, none⟩)
  else if !(channelExists s req.channelId) then (s, ⟨404, none⟩)
  else
    let row : Recording :=
      { id := s.nextId, channelId := req.channelId, date := req.date,
        startTime := req.startTime, duration := req.duration, status := "pending" }
    ({ s with recordings := s.recordings ++ [row], nextId := s.nextId + 1 },
     ⟨201, some row⟩)

/-- The `WHERE status = 'pending'` query both the scheduler tick and the
startup pass issue (app.go lines 146-150 and 214). -/
def pendingRecordings (s : Store) : List Recording :=
  s.recordings.filter (fun r => r.status == "pending")

/-- The due test of one scheduler tick (app.go line 238):
`now.After(startTime) && now.Before(startTime.Add(1*time.Minute))`, i.e.
strictly after the start instant and strictly before one minute past it;
a recording whose start time fails to parse is skipped. -/
def isDue (now : Int) (r : Recording) : Bool :=
  match parseStart r.date r.startTime with
  | none => false
  | some start => start < now && now < start + 60

/-- One tick of startRecordingScheduler (app.go lines 208-242): read the
pending rows, and for each one whose parsed start instant satisfies the due
test, spawn `go startRecording(r)`.  The tick itself performs no store
write; the returned list is the set of recordings handed to capture
workers this tick. -/
def schedulerTick (s : Store) (now : Int) : Store × List Recording :=
  (s, (pendingRecordings s).filter (isDue now))

/-- Startup pass loadRecordings (app.go lines 143-196): read the pending
rows; a row whose start lies in the future is pushed onto `recordingCh`
(returned here as the second component); a row already inside its window or
past it is only logged.  No store write happens on any branch. -/
def loadRecordings (s : Store) (now : Int) : Store × List Recording :=
  (s, (pendingRecordings s).filter (fun r =>
      match parseStart r.date r.startTime with
      | none => false
      | some start => now < start))

/-- Capture worker startRecording (app.go lines 250-312).  The fallible
external effects are passed as booleans selecting the source's error
branches in order: channel row lookup (line 253, absent channel returns
with no write), `os.MkdirAll` (line 262), log-file creation (line 271), and
`cmd.Run()` of ffmpeg (line 299) — each failure logs and returns with no
store write.  Only after a clean ffmpeg exit does the worker run the
unconditional status update to "completed" (line 305). -/
def startRecording (s : Store) (r : Recording) (mkdirOk createLogOk runOk : Bool) : Store :=
  match findChannel s.channels r.channelId with
  | none => s
  | some _ =>
    if !mkdirOk then s
    else if !createLogOk then s
    else if !runOk then s
    else setStatusUnconditional s r.id "completed"

/-- Handler `DELETE /api/recordings/{id}` (app.go lines 649-671): delete
the row unconditionally and answer 204. -/
def deleteRecording (s : Store) (id : Nat) : Store × Nat :=
  ({ s with recordings := s.recordings.filter (fun r => r.id ≠ id) }, 204)

/-- One `INSERT OR IGNORE INTO channels` of loadChannels (app.go line 134). -/
def insertChannelIfAbsent (s : Store) (ch : Channel) : Store :=
  if channelExists s ch.guideNumber then s
  else { s with channels := s.channels ++ [ch] }

/-- loadChannels (app.go lines 116-141): insert-or-ignore every fetched
channel; recordings are untouched. -/
def loadChannels (s : Store) (chs : List Channel) : Store :=
  chs.foldl insertChannelIfAbsent s

/-- Every store-mutating operation of the program, as a step relation on
stores.  The handlers getChannels, getRecordings and getRecordingFile issue
only SELECT queries and mutate nothing. -/
inductive Step : Store → Store → Prop where
  | channels (s : Store) (chs : List Channel) : Step s (loadChannels s chs)
  | create (s : Store) (req : RecordingRequest) : Step s (createRecording s req).1
  | recover (s : Store) (now : Int) : Step s (loadRecordings s now).1
  | tick (s : Store) (now : Int) : Step s (schedulerTick s now).1
  | worker (s : Store) (r : Recording) (mkdirOk createLogOk runOk : Bool) :
      Step s (startRecording s r mkdirOk createLogOk runOk)
  | del (s : Store) (id : Nat) : Step s (deleteRecording s id).1

/-! ### File paths -/

/-- Model of Go `filepath.Join(dir, name)` for one directory and one file
name.  Path cleaning is not modelled; both call sites of the source pass
their arguments through the same Join, so no result below depends on Join
internals. -/
def filepathJoin (dir name : String) : String :=
  if dir == "" then name else dir ++ "/" ++ name

/-- Output path written by the capture worker (app.go lines 261-267):
`filepath.Join(STORAGE_DIR, fmt.Sprintf("%s-%s-%s-%s.mp4", r.Date,
r.StartTime, ch.GuideName, ch.GuideNumber))`, where `ch` is the channel row
found for `r.ChannelID`. -/
def captureOutputFile (storageDir : String) (r : Recording) (ch : Channel) : String :=
  filepathJoin storageDir
    (r.date ++ "-" ++ r.startTime ++ "-" ++ ch.guideName ++ "-" ++ ch.guideNumber ++ ".mp4")

/-- Path resolved by the file handler (app.go lines 443-448):
`filepath.Join(storageDir, fmt.Sprintf("%s-%s-%s-%s.mp4", recording.Date,
recording.StartTime, channelName, recording.ChannelID))`, where
`channelName` is the joined `guide_name` of the recording's channel. -/
def serveFilePath (storageDir : String) (r : Recording) (channelName : String) : String :=
  filepathJoin storageDir
    (r.date ++ "-" ++ r.startTime ++ "-" ++ channelName ++ "-" ++ r.channelId ++ ".mp4")

/-! ### Media server (getRecordingFile, app.go lines 399-563) -/

/-- Model of Go `strconv.ParseInt(s, 10, 64)`: an optional single sign
character followed by at least one decimal digit, with the 64-bit range
check.  (Base 10 is fixed, so no prefixes or underscores are accepted.) -/
def parseInt64 (s : String) : Option Int :=
  match s.data with
  | [] => none
  | c :: rest =>
    let signAndDigits : Bool × List Char :=
      if c == '-' then (true, rest)
      else if c == '+' then (false, rest)
      else (false, c :: rest)
    match signAndDigits with
    | (neg, digits) =>
      if digits.isEmpty then none
      else if digits.all Char.isDigit then
        let v : Nat := digits.foldl (fun a d => a * 10 + digitVal d) 0
        if neg then (if v ≤ 2 ^ 63 then some (-(v : Int)) else none)
        else (if v < 2 ^ 63 then some (v : Int) else none)
      else none

/-- Model of Go `strings.Split(s, sep)` for the single-character separators
the handler uses ("=" and "-"): the list of maximal runs between separator
occurrences, always at least one element. -/
def splitOnChar (sep : Char) : List Char → List (List Char)
  | [] => [[]]
  | c :: rest =>
    let r := splitOnChar sep rest
    if c == sep then [] :: r
    else
      match r with
      | [] => [[c]]
      | h :: t => (c :: h) :: t

/-- String-level wrapper of `splitOnChar`. -/
def splitString (sep : Char) (s : String) : List String :=
  (splitOnChar sep s.data).map String.mk

/-- Stage one of the handler's range parsing (app.go lines 477-510), before
validation: split the header on "=", require exactly the two parts
`bytes` and the range spec; split the spec on "-", require one or two
values (`strings.Split` always yields at least one); parse the start; and
resolve the end — the second value when present and nonempty, the file size
minus one otherwise.  Any failure is answered 400 by the source. -/
def rawRange (rangeHeader : String) (fileSize : Int) : Option (Int × Int) :=
  match splitString '=' rangeHeader with
  | [unitWord, spec] =>
    if unitWord ≠ "bytes" then none
    else
      match splitString '-' spec with
      | [startStr] =>
        match parseInt64 startStr with
        | none => none
        | some a => some (a, fileSize - 1)
      | [startStr, endStr] =>
        match parseInt64 startStr with
        | none => none
        | some a =>
          if endStr ≠ "" then
            match parseInt64 endStr with
            | none => none
            | some b => some (a, b)
          else some (a, fileSize - 1)
      | _ => none
  | _ => none

/-- Result of the handler's range processing. -/
inductive RangeParse where
  | badRequest
  | notSatisfiable
  | accepted (a : Int) (b : Int)
deriving Repr, DecidableEq

/-- Full range parsing of the handler: stage one (400 on failure) followed
by the validation `start < 0 || end >= fileSize || start > end` answered
416 (app.go lines 512-518). -/
def parseRange (rangeHeader : String) (fileSize : Int) : RangeParse :=
  match rawRange rangeHeader fileSize with
  | none => .badRequest
  | some (a, b) =>
    if a < 0 || b ≥ fileSize || a > b then .notSatisfiable
    else .accepted a b

/-- An HTTP response, reduced to status, the headers the handler sets, and
the body bytes it streams. -/
structure HttpResponse where
  status : Nat
  headers : List (String × String)
  body : List Nat
deriving Repr, DecidableEq

/-- Error response: `http.Error` writes a text body, which no claim
observes; it is modelled as empty. -/
def errorResponse (status : Nat) : HttpResponse :=
  { status := status, headers := [], body := [] }

/-- The byte window the handler streams for an accepted range:
`file.Seek(start, io.SeekStart)` followed by
`io.Copy(w, io.LimitReader(file, end-start+1))` (app.go lines 529-540). -/
def listSlice (bytes : List Nat) (a b : Int) : List Nat :=
  (bytes.drop a.toNat).take (b - a + 1).toNat

/-- Model of Go `filepath.Base` for the paths `filepathJoin` builds: the
last slash-separated component. -/
def baseName (p : String) : String :=
  ((splitString '/' p).getLast?).getD p

/-- Full-file response (app.go lines 549-562): status 200 with
Content-Disposition, Content-Type, Content-Length and Accept-Ranges, body
the whole file. -/
def fullFileResponse (path : String) (bytes : List Nat) : HttpResponse :=
  { status := 200,
    headers :=
      [("Content-Disposition", "attachment; filename=" ++ baseName path),
       ("Content-Type", "video/mp4"),
       ("Content-Length", toString bytes.length),
       ("Accept-Ranges", "bytes")],
    body := bytes }

/-- Range-request response path (app.go lines 473-544): parse, reject 400
or 416, or answer 206 with Content-Range `bytes a-b/size`, Content-Length
`b-a+1`, Accept-Ranges, and exactly the requested byte window. -/
def rangeResponse (bytes : List Nat) (rangeHeader : String) : HttpResponse :=
  let fileSize : Int := bytes.length
  match parseRange rangeHeader fileSize with
  | .badRequest => errorResponse 400
  | .notSatisfiable => errorResponse 416
  | .accepted a b =>
    { status := 206,
      headers :=
        [("Content-Range",
          "bytes " ++ toString a ++ "-" ++ toString b ++ "/" ++ toString fileSize),
         ("Content-Length", toString (b - a + 1)),
         ("Accept-Ranges", "bytes")],
      body := listSlice bytes a b }

/-- On-disk storage: a mapping from paths to byte contents.  A path present
in the list is a file that both `os.Stat` and `os.Open` succeed on. -/
def fsLookup (fs : List (String × List Nat)) (path : String) : Option (List Nat) :=
  (fs.find? (fun p => p.1 == path)).map (fun p => p.2)

/-- Handler `GET /api/recordings/{id}/file` (getRecordingFile, app.go lines
399-563), for a well-formed numeric id.  The row query left-joins
`channels` for `guide_name`; when the recording's channel row is absent the
joined `guide_name` is NULL and `rows.Scan` into a Go `string` fails, which
the handler answers 500 (it is neither `sql.ErrNoRows` nor a success).
`rangeHeader` is the result of `r.Header.Get("Range")` — the empty string
when no Range header was sent.  The handler issues only SELECT queries:
no store write occurs on any branch, which the embedding reflects by not
returning a store. -/
def getRecordingFile (s : Store) (fs : List (String × List Nat)) (storageDir : String)
    (id : Nat) (rangeHeader : String) : HttpResponse :=
  match findRecording s.recordings id with
  | none => errorResponse 404
  | some r =>
    match findChannel s.channels r.channelId with
    | none => errorResponse 500
    | some ch =>
      if r.status ≠ "completed" then errorResponse 403
      else
        let path := serveFilePath storageDir r ch.guideName
        match fsLookup fs path with
        | none => errorResponse 404
        | some bytes =>
          if rangeHeader ≠ "" then rangeResponse bytes rangeHeader
          else fullFileResponse path bytes

/-! ### Concrete fixtures used by witnesses and counterexamples -/

/-- A channel as loadChannels would store it. -/
def ch5 : Channel := { guideNumber := "5", guideName := "KABC", url := "http://hdhr/v5" }

/-- A pending recording starting 1970-01-02 00:30 local (instant 88200),
30 minutes long. -/
def rec1 : Recording :=
  { id := 1, channelId := "5", date := "1970-01-02", startTime := "00:30",
    duration := 30, status := "pending" }

/-- A completed recording. -/
def rec2 : Recording :=
  { id := 2, channelId := "5", date := "1970-01-03", startTime := "12:00",
    duration := 30, status := "completed" }

/-- Store holding the channel and the pending recording. -/
def store1 : Store := { channels := [ch5], recordings := [rec1], nextId := 2 }

/-- Store holding the channel, the pending recording and the completed one. -/
def store2 : Store := { channels := [ch5], recordings := [rec1, rec2], nextId := 3 }

/-- Ten bytes of captured video for `rec2`. -/
def file2Bytes : List Nat := [10, 11, 12, 13, 14, 15, 16, 17, 18, 19]

/-- Disk contents: exactly the file of `rec2` at its derived path. -/
def fs2 : List (String × List Nat) := [(serveFilePath "/data" rec2 "KABC", file2Bytes)]

/-! ### Shared helper lemmas -/

/-- Sanity check of the wall-clock parser on a valid instant. -/
theorem parseStart_rec1 : parseStart "1970-01-02" "00:30" = some 88200 := by decide

/-- The parser rejects an out-of-range day. -/
theorem parseStart_badDay : parseStart "1970-01-32" "00:30" = none := by decide

/-- The parser rejects a month that is not zero-padded to two digits. -/
theorem parseStart_badWidth : parseStart "1970-1-02" "00:30" = none := by decide

/-- The status rewrite of `setStatusUnconditional` keeps every row's id. -/
theorem setStatus_keeps_id (r : Recording) (target : Nat) (st : String) :
    (if r.id == target then { r with status := st } else r).id = r.id := by
  by_cases h : r.id == target <;> simp [h]

/-- Row lookup after the unconditional status update. -/
theorem findRecording_map_set (l : List Recording) (target : Nat) (st : String) (id : Nat) :
    findRecording (l.map (fun r => if r.id == target then { r with status := st } else r)) id
      = (findRecording l id).map
          (fun r => if r.id == target then { r with status := st } else r) := by
  induction l with
  | nil => rfl
  | cons r t ih =>
    unfold findRecording at *
    rw [List.map_cons, List.find?_cons, List.find?_cons, setStatus_keeps_id]
    cases h : (r.id == id) with
    | true => simp
    | false => simpa using ih

/-- Searching a filtered list when the search predicate entails the filter. -/
theorem find?_filter_of_imp {α : Type} (p q : α → Bool) (l : List α)
    (himp : ∀ a, p a = true → q a = true) :
    (l.filter q).find? p = l.find? p := by
  induction l with
  | nil => rfl
  | cons a t ih =>
    by_cases hq : q a = true
    · rw [List.filter_cons_of_pos hq]
      by_cases hp : p a = true
      · rw [List.find?_cons_of_pos _ hp, List.find?_cons_of_pos _ hp]
      · rw [List.find?_cons_of_neg _ hp, List.find?_cons_of_neg _ hp, ih]
    · have hp : ¬ p a = true := fun hpa => hq (himp a hpa)
      rw [List.filter_cons_of_neg (by simpa using hq), List.find?_cons_of_neg _ hp, ih]

/-- Searching a filtered list when the search predicate excludes the filter. -/
theorem find?_filter_none {α : Type} (p q : α → Bool) (l : List α)
    (hexc : ∀ a, p a = true → q a = false) :
    (l.filter q).find? p = none := by
  induction l with
  | nil => rfl
  | cons a t ih =>
    by_cases hq : q a = true
    · have hp : ¬ p a = true := fun hpa => by rw [hexc a hpa] at hq; exact Bool.false_ne_true hq
      rw [List.filter_cons_of_pos hq, List.find?_cons_of_neg _ hp, ih]
    · rw [List.filter_cons_of_neg (by simpa using hq), ih]

/-- loadChannels never touches the recordings table. -/
theorem loadChannels_recordings (chs : List Channel) (s : Store) :
    (loadChannels s chs).recordings = s.recordings := by
  induction chs generalizing s with
  | nil => rfl
  | cons c t ih =>
    show (loadChannels (insertChannelIfAbsent s c) t).recordings = s.recordings
    rw [ih]
    unfold insertChannelIfAbsent
    by_cases h : channelExists s c.guideNumber = true <;> simp [h]

/-- Row lookup distributes over table append. -/
theorem findRecording_append (l1 l2 : List Recording) (id : Nat) :
    findRecording (l1 ++ l2) id = (findRecording l1 id).or (findRecording l2 id) := by
  unfold findRecording
  exact List.find?_append

/-- createRecording preserves the status of every job already stored. -/
theorem statusOf_create_of_some (s : Store) (req : RecordingRequest) (id : Nat) (old : String)
    (hold : statusOf s id = some old) :
    statusOf (createRecording s req).1 id = some old := by
  unfold createRecording
  by_cases hd : req.duration ≤ 0
  · simpa [hd] using hold
  · by_cases hc : channelExists s req.channelId
    · unfold statusOf at hold ⊢
      cases hfind : findRecording s.recordings id with
      | none => rw [hfind] at hold; simp at hold
      | some r0 =>
        rw [hfind] at hold
        simp [hd, hc, findRecording_append, hfind, Option.or_some]
        simpa using hold
    · simpa [hd, hc] using hold

/-- Any status the unconditional update leaves readable is either the
written status or a status already stored. -/
theorem statusOf_setStatus_cases (s : Store) (target : Nat) (st : String) (id : Nat)
    (new : String)
    (hnew : statusOf (setStatusUnconditional s target st) id = some new) :
    new = st ∨ statusOf s id = some new := by
  unfold statusOf setStatusUnconditional at hnew
  simp only at hnew
  rw [findRecording_map_set] at hnew
  cases hfind : findRecording s.recordings id with
  | none => rw [hfind] at hnew; simp at hnew
  | some r0 =>
    rw [hfind] at hnew
    simp only [Option.map_map, Function.comp, Option.map_some', Option.some_inj] at hnew
    by_cases hid : (r0.id == target) = true
    · left
      rw [if_pos hid] at hnew
      exact hnew.symm
    · right
      rw [if_neg hid] at hnew
      unfold statusOf
      rw [hfind]
      simp [hnew]

/-- The capture worker either leaves the store unchanged (any error branch)
or performs exactly the unconditional success update. -/
theorem startRecording_cases (s : Store) (r : Recording) (m c k : Bool) :
    startRecording s r m c k = s ∨
    startRecording s r m c k = setStatusUnconditional s r.id "completed" := by
  unfold startRecording
  cases findChannel s.channels r.channelId with
  | none => exact Or.inl rfl
  | some ch =>
    cases m
    · exact Or.inl rfl
    · cases c
      · exact Or.inl rfl
      · cases k
        · exact Or.inl rfl
        · exact Or.inr rfl

/-- The status rewrite of `setStatusUnconditional` keeps every row's
channel id. -/
theorem setStatus_keeps_channelId (r : Recording) (target : Nat) (st : String) :
    (if r.id == target then { r with status := st } else r).channelId = r.channelId := by
  by_cases h : r.id == target <;> simp [h]

/-- A channel found in a table is still found after rows are appended. -/
theorem findChannel_append_isSome (l ext : List Channel) (gid : String)
    (h : (findChannel l gid).isSome = true) :
    (findChannel (l ++ ext) gid).isSome = true := by
  unfold findChannel at *
  rw [List.find?_append]
  cases hf : l.find? (fun c => c.guideNumber == gid) with
  | none => rw [hf] at h; simp at h
  | some c => simp

/-- loadChannels only appends channel rows. -/
theorem loadChannels_channels_prefix (chs : List Channel) (s : Store) :
    ∃ ext, (loadChannels s chs).channels = s.channels ++ ext := by
  induction chs generalizing s with
  | nil => exact ⟨[], by simp [loadChannels]⟩
  | cons c t ih =>
    show ∃ ext, (loadChannels (insertChannelIfAbsent s c) t).channels = s.channels ++ ext
    by_cases h : channelExists s c.guideNumber = true
    · rw [show insertChannelIfAbsent s c = s from by
        unfold insertChannelIfAbsent; rw [if_pos h]]
      exact ih s
    · rw [show insertChannelIfAbsent s c = { s with channels := s.channels ++ [c] } from by
        unfold insertChannelIfAbsent; rw [if_neg h]]
      obtain ⟨ext, hext⟩ := ih { s with channels := s.channels ++ [c] }
      exact ⟨c :: ext, by rw [hext]; simp⟩

/-- Data-integrity invariant: every stored recording's channel row exists.
createRecording checks the channel before inserting and no operation ever
deletes a channel row, so every store the program can reach from a fresh
database satisfies it; it is the premise under which the file handler's
left-joined `guide_name` is non-NULL. -/
def channelsLinked (s : Store) : Prop :=
  ∀ r ∈ s.recordings, (findChannel s.channels r.channelId).isSome = true

/-- A fresh database satisfies the invariant. -/
theorem initial_channelsLinked :
    channelsLinked { channels := [], recordings := [], nextId := 1 } := by
  intro r hr
  exact absurd hr (by simp)

/-- Every store-mutating operation preserves the invariant. -/
theorem step_preserves_channelsLinked (s s2 : Store) (hstep : Step s s2)
    (hinv : channelsLinked s) : channelsLinked s2 := by
  cases hstep with
  | channels chs =>
    intro r hr
    rw [loadChannels_recordings] at hr
    obtain ⟨ext, hext⟩ := loadChannels_channels_prefix chs s
    rw [hext]
    exact findChannel_append_isSome _ _ _ (hinv r hr)
  | create req =>
    intro r hr
    by_cases hd : req.duration ≤ 0
    · simp only [createRecording, if_pos hd] at hr ⊢
      exact hinv r hr
    · by_cases hc : channelExists s req.channelId
      · simp [createRecording, hd, hc] at hr ⊢
        rcases hr with hr | hr
        · exact hinv r hr
        · subst hr
          simpa [channelExists] using hc
      · simp [createRecording, hd, hc] at hr ⊢
        exact hinv r hr
  | recover now => exact hinv
  | tick now => exact hinv
  | worker r0 m c ok =>
    rcases startRecording_cases s r0 m c ok with h | h <;> rw [h]
    · exact hinv
    · intro r hr
      unfold setStatusUnconditional at hr
      simp only [List.mem_map] at hr
      obtain ⟨r1, hr1, rfl⟩ := hr
      rw [setStatus_keeps_channelId]
      exact hinv r1 hr1
  | del target =>
    intro r hr
    unfold deleteRecording at hr
    simp only [List.mem_filter] at hr
    exact hinv r hr.1

/-! ### Claims -/

/-- C9: the output path written by the capture worker and the path resolved
by the media server are extensionally equal.  `captureOutputFile` embeds
startRecording lines 260-267 and `serveFilePath` embeds getRecordingFile
lines 443-448; both call sites obtain the channel name by looking the job's
channel id up in `channels`, and under that hypothesis the two strings
coincide for every job, channel and storage directory. -/
theorem c9_path_functions_agree (chs : List Channel) (storageDir : String)
    (r : Recording) (ch : Channel)
    (h : findChannel chs r.channelId = some ch) :
    captureOutputFile storageDir r ch = serveFilePath storageDir r ch.guideName := by
  rw [findChannel] at h
  have hp := List.find?_some h
  have hg : ch.guideNumber = r.channelId := by simpa using hp
  simp [captureOutputFile, serveFilePath, hg]

/-- Witness for c9_path_functions_agree at a concrete job and channel. -/
theorem c9_path_functions_agree_witness :
    captureOutputFile "/data" rec1 ch5 = serveFilePath "/data" rec1 ch5.guideName :=
  c9_path_functions_agree [ch5] "/data" rec1 ch5 (by decide)

/-- C1 (counterexample): at instant 88230 the pending job `rec1` (start
instant 88200) is due, and the tick hands it to a capture worker, yet the
post-tick store still records status "pending", not "recording" — no
compare-and-set (and no status write at all) precedes the launch. -/
theorem c1_launch_without_cas_counterexample :
    (schedulerTick store1 88230).2 = [rec1] ∧
    statusOf (schedulerTick store1 88230).1 1 = some "pending" ∧
    statusOf (schedulerTick store1 88230).1 1 ≠ some "recording" := by
  refine ⟨by decide, by decide, by decide⟩

/-- C1 (amended): on every scheduler tick, a capture worker is launched for
each due job directly, with no status update of any kind: the tick leaves
the store unchanged, and every launched job is a row of the store whose
status is still "pending" (and which passed the due test).  Nothing
prevents two racing callers from both launching the same job. -/
theorem c1_launch_keeps_pending (s : Store) (now : Int) :
    (schedulerTick s now).1 = s ∧
    ∀ r ∈ (schedulerTick s now).2,
      r.status = "pending" ∧ r ∈ s.recordings ∧ isDue now r = true := by
  refine ⟨rfl, ?_⟩
  intro r hr
  simp only [schedulerTick, pendingRecordings, List.mem_filter] at hr
  exact ⟨by simpa using hr.1.2, hr.1.1, hr.2⟩

/-- Witness for c1_launch_keeps_pending: the launched job of the
counterexample instant indeed has status "pending". -/
theorem c1_launch_keeps_pending_witness :
    rec1.status = "pending" ∧ rec1 ∈ store1.recordings ∧ isDue 88230 rec1 = true :=
  (c1_launch_keeps_pending store1 88230).2 rec1 (by decide)

/-- C5 (counterexample): a tick whose `now` is exactly the job's start
instant (88200) does not match the job, although the claimed half-open
window [start, start + 1 minute) contains it: the source test
`now.After(startTime)` is strict. -/
theorem c5_start_instant_not_due_counterexample :
    parseStart rec1.date rec1.startTime = some 88200 ∧
    rec1.status = "pending" ∧ rec1 ∈ store1.recordings ∧
    isDue 88200 rec1 = false ∧
    (schedulerTick store1 88200).2 = [] := by
  refine ⟨by decide, by decide, by decide, by decide, by decide⟩

/-- C5 (amended): a pending job is matched as due if and only if the tick's
`now` lies in the open interval (start, start + 1 minute): a tick exactly
at the start instant does not match, and a tick at or after one minute past
the start does not match. -/
theorem c5_due_window_open (s : Store) (now start : Int) (r : Recording)
    (hp : parseStart r.date r.startTime = some start) :
    r ∈ (schedulerTick s now).2 ↔
      r ∈ s.recordings ∧ r.status = "pending" ∧ start < now ∧ now < start + 60 := by
  simp [schedulerTick, pendingRecordings, List.mem_filter, isDue, hp, Bool.and_eq_true,
    decide_eq_true_eq, and_assoc]
  tauto

/-- Witness for c5_due_window_open one second after the start instant. -/
theorem c5_due_window_open_witness :
    rec1 ∈ (schedulerTick store1 88201).2 ↔
      rec1 ∈ store1.recordings ∧ rec1.status = "pending" ∧
      (88200 : Int) < 88201 ∧ (88201 : Int) < 88200 + 60 :=
  c5_due_window_open store1 88201 88200 rec1 (by decide)

/-- C3 (counterexample): the pending job `rec1` whose whole window elapsed
long ago (start 88200, duration 30 minutes, now 100000) is neither
transitioned to "failed" by the startup pass nor by a scheduler tick: both
leave the store unchanged with the job still "pending", neither schedules
nor launches it, so it is left "pending" forever. -/
theorem c3_elapsed_stays_pending_counterexample :
    parseStart rec1.date rec1.startTime = some 88200 ∧
    (88200 : Int) + rec1.duration * 60 < 100000 ∧
    statusOf (loadRecordings store1 100000).1 1 = some "pending" ∧
    (loadRecordings store1 100000).2 = [] ∧
    statusOf (schedulerTick store1 100000).1 1 = some "pending" ∧
    (schedulerTick store1 100000).2 = [] ∧
    statusOf (loadRecordings store1 100000).1 1 ≠ some "failed" := by
  refine ⟨by decide, by decide, by decide, by decide, by decide, by decide, by decide⟩

/-- C3 (amended): a job still "pending" after its whole window has elapsed
is never transitioned at all: neither the startup pass (loadRecordings,
which only logs such jobs) nor a scheduler tick writes to the store, the
elapsed job fails the due test, and the startup pass does not push it to
the recording channel — so after a restart it stays "pending" forever. -/
theorem c3_elapsed_never_failed (s : Store) (now start : Int) (r : Recording)
    (hp : parseStart r.date r.startTime = some start)
    (hdur : 0 < r.duration)
    (helapsed : start + r.duration * 60 < now) :
    (loadRecordings s now).1 = s ∧ (schedulerTick s now).1 = s ∧
    isDue now r = false ∧ r ∉ (loadRecordings s now).2 := by
  refine ⟨rfl, rfl, ?_, ?_⟩
  · have hnot : ¬ (now < start + 60) := by omega
    simp [isDue, hp, hnot]
  · intro hmem
    simp only [loadRecordings, pendingRecordings, List.mem_filter, hp] at hmem
    have : now < start := by simpa using hmem.2
    omega

/-- Witness for c3_elapsed_never_failed at the concrete elapsed instant. -/
theorem c3_elapsed_never_failed_witness :
    (loadRecordings store1 100000).1 = store1 ∧
    (schedulerTick store1 100000).1 = store1 ∧
    isDue 100000 rec1 = false ∧ rec1 ∉ (loadRecordings store1 100000).2 :=
  c3_elapsed_never_failed store1 100000 88200 rec1 (by decide) (by decide) (by decide)

/-- C4 (counterexample): when the capture run fails (`cmd.Run` returns an
error) the worker performs no status write at all — the job stays
"pending", it is not transitioned to "failed"; and on a clean exit the job
is moved to "completed" directly from "pending", not from "recording". -/
theorem c4_failure_leaves_pending_counterexample :
    statusOf store1 1 = some "pending" ∧
    statusOf (startRecording store1 rec1 true true false) 1 = some "pending" ∧
    statusOf (startRecording store1 rec1 true true false) 1 ≠ some "failed" ∧
    statusOf (startRecording store1 rec1 true true true) 1 = some "completed" := by
  refine ⟨by decide, by decide, by decide, by decide⟩

/-- C4 (amended): when the external capture process exits non-zero or
cannot be started (or the output directory or log file cannot be created,
or the channel row is absent), the worker returns with the store untouched
— the job keeps whatever status it had; only on a clean exit does it run
the unconditional update of the job's status to "completed". -/
theorem c4_worker_outcomes (s : Store) (r : Recording) :
    (∀ mkdirOk createLogOk, startRecording s r mkdirOk createLogOk false = s) ∧
    (∀ runOk, startRecording s r false true runOk = s) ∧
    (∀ runOk, startRecording s r true false runOk = s) ∧
    (findChannel s.channels r.channelId = none →
      ∀ mkdirOk createLogOk runOk, startRecording s r mkdirOk createLogOk runOk = s) ∧
    ((findChannel s.channels r.channelId).isSome = true →
      startRecording s r true true true = setStatusUnconditional s r.id "completed") := by
  refine ⟨?_, ?_, ?_, ?_, ?_⟩
  · intro m c
    unfold startRecording
    cases h : findChannel s.channels r.channelId with
    | none => rfl
    | some ch => cases m <;> cases c <;> simp
  · intro runOk
    unfold startRecording
    cases h : findChannel s.channels r.channelId with
    | none => rfl
    | some ch => simp
  · intro runOk
    unfold startRecording
    cases h : findChannel s.channels r.channelId with
    | none => rfl
    | some ch => simp
  · intro hnone m c k
    unfold startRecording
    rw [hnone]
  · intro hsome
    unfold startRecording
    cases h : findChannel s.channels r.channelId with
    | none => rw [h] at hsome; simp at hsome
    | some ch => simp

/-- Witness for c4_worker_outcomes: the clean-exit branch on the concrete
store. -/
theorem c4_worker_outcomes_witness :
    startRecording store1 rec1 true true true = setStatusUnconditional store1 rec1.id "completed" :=
  (c4_worker_outcomes store1 rec1).2.2.2.2 (by decide)

/-- C2 (counterexample): a reachable operation of the program — the capture
worker's clean-exit update — moves job 1 directly from "pending" to
"completed", a transition the claimed state machine excludes (it admits
"completed" only as successor of "recording"). -/
theorem c2_direct_pending_completed_counterexample :
    Step store1 (startRecording store1 rec1 true true true) ∧
    statusOf store1 1 = some "pending" ∧
    statusOf (startRecording store1 rec1 true true true) 1 = some "completed" :=
  ⟨Step.worker store1 rec1 true true true, by decide, by decide⟩

/-- C2 (amended): across every store-mutating operation of the program, a
stored job's status either stays what it was or becomes "completed" — the
worker's unconditional success update.  The statuses "recording" and
"failed" are never written, and the only status change a job created
"pending" can undergo is the direct transition pending → completed. -/
theorem c2_status_changes (s s' : Store) (hstep : Step s s') (id : Nat) (old new : String)
    (hold : statusOf s id = some old) (hnew : statusOf s' id = some new) :
    new = old ∨ new = "completed" := by
  cases hstep with
  | channels chs =>
    left
    have hsame : statusOf (loadChannels s chs) id = statusOf s id := by
      unfold statusOf findRecording
      rw [loadChannels_recordings]
    rw [hsame, hold] at hnew
    exact (Option.some_inj.mp hnew).symm
  | create req =>
    left
    rw [statusOf_create_of_some s req id old hold] at hnew
    exact (Option.some_inj.mp hnew).symm
  | recover now =>
    left
    rw [show (loadRecordings s now).1 = s from rfl, hold] at hnew
    exact (Option.some_inj.mp hnew).symm
  | tick now =>
    left
    rw [show (schedulerTick s now).1 = s from rfl, hold] at hnew
    exact (Option.some_inj.mp hnew).symm
  | worker r m c ok =>
    unfold startRecording at hnew
    cases hch : findChannel s.channels r.channelId with
    | none =>
      rw [hch] at hnew
      left
      rw [hold] at hnew
      exact (Option.some_inj.mp hnew).symm
    | some ch =>
      rw [hch] at hnew
      by_cases hm : m = true
      · by_cases hc2 : c = true
        · by_cases hk : ok = true
          · rw [hm, hc2, hk] at hnew
            simp at hnew
            rcases statusOf_setStatus_cases s r.id "completed" id new hnew with heq | hsame
            · right; exact heq
            · left
              rw [hold] at hsame
              exact (Option.some_inj.mp hsame).symm
          · left
            have hkf : ok = false := by revert hk; cases ok <;> simp
            rw [hm, hc2, hkf] at hnew
            simp at hnew
            rw [hold] at hnew
            exact (Option.some_inj.mp hnew).symm
        · left
          have hcf : c = false := by revert hc2; cases c <;> simp
          rw [hm, hcf] at hnew
          simp at hnew
          rw [hold] at hnew
          exact (Option.some_inj.mp hnew).symm
      · left
        have hmf : m = false := by revert hm; cases m <;> simp
        rw [hmf] at hnew
        simp at hnew
        rw [hold] at hnew
        exact (Option.some_inj.mp hnew).symm
  | del target =>
    left
    unfold deleteRecording statusOf at hnew
    simp only at hnew
    by_cases hid : id = target
    · subst hid
      rw [show findRecording (s.recordings.filter fun r => decide (r.id ≠ id)) id = none from
          find?_filter_none _ _ _ (fun a hpa => by simp_all)] at hnew
      simp at hnew
    · rw [show findRecording (s.recordings.filter fun r => decide (r.id ≠ target)) id
            = findRecording s.recordings id from
          find?_filter_of_imp _ _ _ (fun a hpa => by simp_all)] at hnew
      unfold statusOf at hold
      rw [hold] at hnew
      exact (Option.some_inj.mp hnew).symm

/-- Witness for c2_status_changes at the worker's clean-exit step. -/
theorem c2_status_changes_witness :
    "completed" = "pending" ∨ "completed" = "completed" :=
  c2_status_changes store1 (startRecording store1 rec1 true true true)
    (Step.worker store1 rec1 true true true) 1 "pending" "completed"
    (by decide) (by decide)

/-- A create request whose duration is nonpositive and whose channel id is
unknown. -/
def reqBad : RecordingRequest :=
  { channelId := "42", date := "1970-01-05", startTime := "10:00", duration := 0 }

/-- A well-formed create request against the stored channel. -/
def reqGood : RecordingRequest :=
  { channelId := "5", date := "1970-01-06", startTime := "08:00", duration := 45 }

/-- C10 (counterexample): a request with nonpositive duration AND an
unknown channel id is answered 400, because the duration check runs first —
so "fails with 404 if and only if the channel id is absent" is false: here
the channel id is absent yet the status is not 404. -/
theorem c10_bad_duration_unknown_channel_counterexample :
    channelExists store1 reqBad.channelId = false ∧
    (createRecording store1 reqBad).2.status = 400 ∧
    (createRecording store1 reqBad).2.status ≠ 404 := by
  refine ⟨by decide, by decide, by decide⟩

/-- C10 (amended): creation fails with 400 iff duration ≤ 0 (checked
first), and with 404 iff duration > 0 and the channel id is absent; in
either failure the store is unchanged; for every other request — with no
validation of the date or startTime strings — a row with status "pending"
and the store-assigned id is appended and the response is 201 carrying that
recording. -/
theorem c10_create_classification (s : Store) (req : RecordingRequest) :
    ((createRecording s req).2.status = 400 ↔ req.duration ≤ 0) ∧
    ((createRecording s req).2.status = 404 ↔
      0 < req.duration ∧ channelExists s req.channelId = false) ∧
    ((createRecording s req).2.status = 400 ∨ (createRecording s req).2.status = 404 →
      (createRecording s req).1 = s) ∧
    (0 < req.duration → channelExists s req.channelId = true →
      (createRecording s req).2.status = 201 ∧
      (createRecording s req).2.body = some
        { id := s.nextId, channelId := req.channelId, date := req.date,
          startTime := req.startTime, duration := req.duration, status := "pending" } ∧
      (createRecording s req).1.recordings = s.recordings ++
        [{ id := s.nextId, channelId := req.channelId, date := req.date,
           startTime := req.startTime, duration := req.duration, status := "pending" }]) := by
  unfold createRecording
  by_cases hd : req.duration ≤ 0
  · simp [hd]
  · by_cases hc : channelExists s req.channelId
    · simp [hd, hc]
    · simp [hd, hc]
      omega

/-- Witness for c10_create_classification on a valid request. -/
theorem c10_create_classification_witness :
    (createRecording store1 reqGood).2.status = 201 ∧
    (createRecording store1 reqGood).2.body = some
      { id := store1.nextId, channelId := reqGood.channelId, date := reqGood.date,
        startTime := reqGood.startTime, duration := reqGood.duration, status := "pending" } ∧
    (createRecording store1 reqGood).1.recordings = store1.recordings ++
      [{ id := store1.nextId, channelId := reqGood.channelId, date := reqGood.date,
         startTime := reqGood.startTime, duration := reqGood.duration, status := "pending" }] :=
  (c10_create_classification store1 reqGood).2.2.2 (by decide) (by decide)

/-- Every accepted range satisfies the validated bounds. -/
theorem parseRange_accepted_bounds (hdr : String) (size a b : Int)
    (hok : parseRange hdr size = RangeParse.accepted a b) :
    0 ≤ a ∧ a ≤ b ∧ b < size := by
  cases hraw : rawRange hdr size with
  | none =>
    simp only [parseRange, hraw] at hok
    exact absurd hok (by simp)
  | some ab =>
    obtain ⟨x, y⟩ := ab
    simp only [parseRange, hraw] at hok
    by_cases hbad : (x < 0 || y ≥ size || x > y) = true
    · rw [if_pos hbad] at hok
      exact absurd hok (by simp)
    · rw [if_neg hbad] at hok
      simp only [Bool.or_eq_true, decide_eq_true_eq, not_or, not_lt] at hbad
      cases hok
      omega

/-- C6: for every completed job with an on-disk file and every range header
the parser accepts with bounds (a, b) — which covers `bytes=A-B` and
`bytes=A-` with the end defaulting to size − 1 — the handler responds 206
with Content-Range `bytes a-b/size`, Content-Length `b-a+1`, Accept-Ranges
`bytes`, and a body that is exactly bytes a..b of the file: the slice
starting at a of length b-a+1, no more. -/
theorem c6_range_request_success (s : Store) (fs : List (String × List Nat))
    (storageDir : String) (id : Nat) (r : Recording) (ch : Channel) (bytes : List Nat)
    (hdr : String) (a b : Int)
    (hrec : findRecording s.recordings id = some r)
    (hch : findChannel s.channels r.channelId = some ch)
    (hst : r.status = "completed")
    (hfile : fsLookup fs (serveFilePath storageDir r ch.guideName) = some bytes)
    (hne : hdr ≠ "")
    (hparse : parseRange hdr (bytes.length : Int) = RangeParse.accepted a b) :
    getRecordingFile s fs storageDir id hdr =
      { status := 206,
        headers :=
          [("Content-Range",
            "bytes " ++ toString a ++ "-" ++ toString b ++ "/" ++
              toString (bytes.length : Int)),
           ("Content-Length", toString (b - a + 1)),
           ("Accept-Ranges", "bytes")],
        body := (bytes.drop a.toNat).take (b - a + 1).toNat } ∧
    ((bytes.drop a.toNat).take (b - a + 1).toNat).length = (b - a + 1).toNat ∧
    0 ≤ a ∧ a ≤ b ∧ b < (bytes.length : Int) := by
  obtain ⟨h0, hab, hbs⟩ := parseRange_accepted_bounds hdr (bytes.length : Int) a b hparse
  refine ⟨?_, ?_, h0, hab, hbs⟩
  · simp only [getRecordingFile, hrec, hch]
    rw [if_neg (by simp [hst])]
    simp only [hfile]
    rw [if_pos hne]
    simp only [rangeResponse, hparse, listSlice]
  · rw [List.length_take, List.length_drop]
    omega

/-- Witness for c6_range_request_success: `bytes=2-5` on the ten-byte file
of the completed job. -/
theorem c6_range_request_success_witness :
    getRecordingFile store2 fs2 "/data" 2 "bytes=2-5" =
      { status := 206,
        headers :=
          [("Content-Range",
            "bytes " ++ toString (2 : Int) ++ "-" ++ toString (5 : Int) ++ "/" ++
              toString (file2Bytes.length : Int)),
           ("Content-Length", toString ((5 : Int) - 2 + 1)),
           ("Accept-Ranges", "bytes")],
        body := (file2Bytes.drop (2 : Int).toNat).take ((5 : Int) - 2 + 1).toNat } ∧
    ((file2Bytes.drop (2 : Int).toNat).take ((5 : Int) - 2 + 1).toNat).length
      = ((5 : Int) - 2 + 1).toNat ∧
    (0 : Int) ≤ 2 ∧ (2 : Int) ≤ 5 ∧ (5 : Int) < (file2Bytes.length : Int) :=
  c6_range_request_success store2 fs2 "/data" 2 rec2 ch5 file2Bytes "bytes=2-5" 2 5
    (by decide) (by decide) (by decide) (by decide) (by decide) (by decide)

/-- C7 (counterexample): the header `bytes=5` is of neither form
`bytes=A-B` nor `bytes=A-` (it has no dash at all), yet the parser accepts
it — treating it as `bytes=5-` — and the handler answers 206, not 400. -/
theorem c7_no_dash_accepted_counterexample :
    parseRange "bytes=5" 10 = RangeParse.accepted 5 9 ∧
    (getRecordingFile store2 fs2 "/data" 2 "bytes=5").status = 206 ∧
    (getRecordingFile store2 fs2 "/data" 2 "bytes=5").status ≠ 400 := by
  refine ⟨by decide, by decide, by decide⟩

/-- C7 (amended): the parser rejects with 400 exactly the headers outside
the accepted shape — one "=" splitting `bytes` from the spec, the spec
splitting on "-" into one or two values, an integer start, and an integer
end when present and nonempty; this shape also admits `bytes=A` with no
dash, read as `bytes=A-`.  A header of accepted shape with resolved bounds
(a, b) is rejected with 416 exactly when a < 0 (unreachable for this
grammar), b ≥ fileSize, or a > b, and is accepted otherwise — as witnessed
on the spec's own edge cases: `bytes=abc-10` fails the shape, and on a
1000-byte file `bytes=900-1000` is 416 while `bytes=500-` yields bytes
500..999. -/
theorem c7_range_rejection (hdr : String) (size : Int) :
    (parseRange hdr size = RangeParse.badRequest ↔ rawRange hdr size = none) ∧
    (∀ a b, rawRange hdr size = some (a, b) →
      (parseRange hdr size = RangeParse.notSatisfiable ↔ (a < 0 ∨ b ≥ size ∨ a > b)) ∧
      (parseRange hdr size = RangeParse.accepted a b ↔ ¬(a < 0 ∨ b ≥ size ∨ a > b))) ∧
    rawRange "bytes=abc-10" 1000 = none ∧
    parseRange "bytes=900-1000" 1000 = RangeParse.notSatisfiable ∧
    parseRange "bytes=500-" 1000 = RangeParse.accepted 500 999 := by
  refine ⟨?_, ?_, by decide, by decide, by decide⟩
  · cases hraw : rawRange hdr size with
    | none => simp [parseRange, hraw]
    | some ab =>
      obtain ⟨x, y⟩ := ab
      by_cases hbad : (x < 0 || y ≥ size || x > y) = true
      · simp [parseRange, hraw, hbad]
      · simp [parseRange, hraw, hbad]
  · intro a b hab
    simp only [parseRange, hab]
    by_cases hbad : (a < 0 || b ≥ size || a > b) = true
    · rw [if_pos hbad]
      simp only [Bool.or_eq_true, decide_eq_true_eq] at hbad
      constructor
      · constructor
        · intro _
          omega
        · intro _
          rfl
      · constructor
        · intro h
          exact absurd h (by simp)
        · intro h
          exfalso
          omega
    · rw [if_neg hbad]
      simp only [Bool.or_eq_true, decide_eq_true_eq] at hbad
      constructor
      · constructor
        · intro h
          exact absurd h (by simp)
        · intro h
          exfalso
          omega
      · constructor
        · intro _
          omega
        · intro _
          rfl

/-- Witness for c7_range_rejection at the accepted header `bytes=5`. -/
theorem c7_range_rejection_witness :
    parseRange "bytes=5" 10 = RangeParse.notSatisfiable ↔
      ((5 : Int) < 0 ∨ (9 : Int) ≥ 10 ∨ (5 : Int) > 9) :=
  ((c7_range_rejection "bytes=5" 10).2.1 5 9 (by decide)).1

/-- C8: the fetch handler answers 404 when the job id is absent, 403 when
the job exists (with its channel row, as every job created by the program
has) but its status is not "completed", and 404 when the status is
"completed" but the derived file is missing on disk; the handler issues
only SELECT queries, so no store state is mutated on any branch (the
embedding accordingly returns no store). -/
theorem c8_fetch_error_classification (s : Store) (fs : List (String × List Nat))
    (storageDir : String) (id : Nat) (hdr : String) :
    (findRecording s.recordings id = none →
      getRecordingFile s fs storageDir id hdr = errorResponse 404) ∧
    (∀ r ch, findRecording s.recordings id = some r →
      findChannel s.channels r.channelId = some ch →
      r.status ≠ "completed" →
      getRecordingFile s fs storageDir id hdr = errorResponse 403) ∧
    (∀ r ch, findRecording s.recordings id = some r →
      findChannel s.channels r.channelId = some ch →
      r.status = "completed" →
      fsLookup fs (serveFilePath storageDir r ch.guideName) = none →
      getRecordingFile s fs storageDir id hdr = errorResponse 404) := by
  refine ⟨?_, ?_, ?_⟩
  · intro hnone
    simp [getRecordingFile, hnone]
  · intro r ch hrec hch hst
    simp [getRecordingFile, hrec, hch, hst]
  · intro r ch hrec hch hst hfile
    simp [getRecordingFile, hrec, hch, hst, hfile]

/-- Witness for c8_fetch_error_classification: an unknown id, the pending
job, and the completed job with an empty disk. -/
theorem c8_fetch_error_classification_witness :
    getRecordingFile store2 fs2 "/data" 99 "" = errorResponse 404 ∧
    getRecordingFile store2 fs2 "/data" 1 "" = errorResponse 403 ∧
    getRecordingFile store2 [] "/data" 2 "" = errorResponse 404 :=
  ⟨(c8_fetch_error_classification store2 fs2 "/data" 99 "").1 (by decide),
   (c8_fetch_error_classification store2 fs2 "/data" 1 "").2.1 rec1 ch5
     (by decide) (by decide) (by decide),
   (c8_fetch_error_classification store2 [] "/data" 2 "").2.2 rec2 ch5
     (by decide) (by decide) (by decide) (by decide)⟩

end HdhrDvr
